import Mathlib

/-!
Shallow embedding of `src/js/frame-animator.js` (class `FrameAnimator`):
the playback scheduler (`play`, `playFromFrame`, `stop`, `animate`,
`renderFrame`), path construction (`normalizePath`, `getFramePath`),
the batched-load progress reports of `loadAllFrames`, the resize handler
(`updateCanvasSize`, `handleResize`) and the constructor's validation and
defaulting of options.

Modelling conventions: JS numbers carrying time or configuration values
are `ℚ`; frame indices and counts inside a running session are `ℕ`;
an image slot is `true` when loaded and `false` when still `null`
(the drawn pixels are irrelevant to every property below, only presence
is observable); `armed` records whether a `requestAnimationFrame`
callback registration is pending (`animationId` live).  The drawing
primitives (`clearRect` / `drawImage`) are modelled as always
succeeding, so the `catch` branch of `renderFrame` is unreachable in
the model.
-/

namespace FrameAnim

/-- Truncation toward zero of a rational, as JS division underlying `%`
truncates. -/
def jsTrunc (q : ℚ) : ℤ := q.num.tdiv (q.den : ℤ)

/-- JS remainder `a % b` on numbers (`fmod`): `a - b * trunc(a / b)`,
as used in `animate` for `delta % (1000 / this.fps)`. -/
def jsMod (a b : ℚ) : ℚ := a - b * (jsTrunc (a / b) : ℚ)

/-- JS `String.prototype.endsWith`, on the underlying character list. -/
def jsEndsWith (s suffix : String) : Bool := suffix.data.isSuffixOf s.data

/-- `normalizePath` from the source: append one trailing slash unless the
path already ends with a slash. -/
def normalizePath (path : String) : String :=
  if jsEndsWith path "/" then path else path ++ "/"

/-- JS `String.prototype.padStart` with a one-character pad string. -/
def padStart (s : String) (targetLength : Nat) (pad : Char) : String :=
  if s.length < targetLength then
    String.mk (List.replicate (targetLength - s.length) pad) ++ s
  else s

/-- The state of one `FrameAnimator` session, restricted to the fields
the playback scheduler, renderer and resize handler read or write.
`pfx` models the source field named after a Lean keyword (the name-stem
option); `images` has one entry per slot. -/
structure FrameAnimator where
  pfx : String
  frameCount : Nat
  imagePath : String
  digits : Nat
  fps : ℚ
  loop : Bool
  playOnce : Bool
  images : List Bool
  currentFrame : Nat
  isPlaying : Bool
  hasPlayed : Bool
  hasError : Bool
  isLoading : Bool
  lastTime : ℚ
  armed : Bool
  originalWidth : ℚ
  originalHeight : ℚ
  scale : ℚ
  canvasWidth : ℚ
  canvasHeight : ℚ
  deriving DecidableEq, Repr

/-- `play()`: silently return when already playing, in fatal error, or
still loading; otherwise reset the index to 0, clear `hasPlayed`, start
playing and arm the clock. -/
def play (a : FrameAnimator) (now : ℚ) : FrameAnimator :=
  if a.isPlaying || a.hasError || a.isLoading then a
  else { a with currentFrame := 0, hasPlayed := false, isPlaying := true,
                lastTime := now, armed := true }

/-- `playFromFrame(startFrame)`: same guard as `play`, but clamp the
requested start into `[0, frameCount - 1]` instead of resetting to 0. -/
def playFromFrame (a : FrameAnimator) (startFrame : Int) (now : ℚ) :
    FrameAnimator :=
  if a.isPlaying || a.hasError || a.isLoading then a
  else
    let clamped : Int := max 0 (min startFrame ((a.frameCount : Int) - 1))
    { a with currentFrame := clamped.toNat, hasPlayed := false,
             isPlaying := true, lastTime := now, armed := true }

/-- `stop()`: leave `Playing` and cancel the pending tick registration. -/
def stop (a : FrameAnimator) : FrameAnimator :=
  { a with isPlaying := false, armed := false }

/-- `renderFrame()`: advance the index by one modulo `frameCount` unless
frozen (`playOnce && hasPlayed && !loop`), then look the slot up; a
`null` slot silently skips the draw.  Returns the new state and the
index drawn, `none` when nothing was drawn. -/
def renderFrame (a : FrameAnimator) : FrameAnimator × Option Nat :=
  let a1 :=
    if !a.playOnce || !a.hasPlayed || a.loop then
      { a with currentFrame := (a.currentFrame + 1) % a.frameCount }
    else a
  if a1.images.getD a1.currentFrame false then (a1, some a1.currentFrame)
  else (a1, none)

/-- `animate(timestamp)`: one clock tick.  Entering the callback consumes
the pending registration, hence `armed` is cleared on entry; the
`requestAnimationFrame` call at the end of the body re-arms.  Returns
the new state and the index drawn by this tick, if any.  The wrap test
compares against `frameCount - 1` over the integers, as JS does. -/
def animate (a : FrameAnimator) (timestamp : ℚ) : FrameAnimator × Option Nat :=
  let a0 := { a with armed := false }
  if !a0.isPlaying then (a0, none)
  else if a0.playOnce && a0.hasPlayed then (stop a0, none)
  else
    let delta := timestamp - a0.lastTime
    if delta > 1000 / a0.fps then
      let r := renderFrame a0
      let a1 := { r.1 with lastTime := timestamp - jsMod delta (1000 / a0.fps) }
      if (a1.currentFrame : Int) = (a1.frameCount : Int) - 1 then
        let a2 := { a1 with hasPlayed := true }
        if a2.playOnce && !a2.loop then (stop a2, r.2)
        else ({ a2 with armed := true }, r.2)
      else ({ a1 with armed := true }, r.2)
    else ({ a0 with armed := true }, none)

/-- Fold a sequence of tick timestamps through `animate`, collecting the
drawn indices in order. -/
def runTicks : FrameAnimator → List ℚ → FrameAnimator × List Nat
  | a, [] => (a, [])
  | a, t :: ts =>
    let r := animate a t
    let rest := runTicks r.1 ts
    (rest.1, r.2.toList ++ rest.2)

/-- `getFramePath(index)`: build the frame file path from the base path,
the name stem, and the zero-padded decimal frame number. -/
def getFramePath (a : FrameAnimator) (index : Nat) : String :=
  a.imagePath ++ a.pfx ++ "/" ++ a.pfx ++
    padStart (Nat.repr index) a.digits '0' ++ ".webp"

/-- `updateCanvasSize()`: recompute the uniform scale from the container
size and resize the drawing surface accordingly. -/
def updateCanvasSize (a : FrameAnimator) (containerWidth containerHeight : ℚ) :
    FrameAnimator :=
  let widthRatio := containerWidth / a.originalWidth
  let heightRatio := containerHeight / a.originalHeight
  let s := min widthRatio heightRatio
  { a with scale := s, canvasWidth := a.originalWidth * s,
           canvasHeight := a.originalHeight * s }

/-- `handleResize()`: bail out while the original dimensions are still
the falsy `0`, otherwise resize and force a re-render, with no test of
the playing flag. -/
def handleResize (a : FrameAnimator) (containerWidth containerHeight : ℚ) :
    FrameAnimator × Option Nat :=
  if a.originalWidth = 0 ∨ a.originalHeight = 0 then (a, none)
  else renderFrame (updateCanvasSize a containerWidth containerHeight)

/-- `Math.ceil(frameCount / 45)` from `loadAllFrames` (`batchSize = 45`). -/
def totalBatches (frameCount : Nat) : Nat := (frameCount + 44) / 45

/-- The successive fractions `(batch + 1) / totalBatches` that
`loadAllFrames` passes to `updateProgress`, in execution order. -/
def progressReports (frameCount : Nat) : List ℚ :=
  (List.range (totalBatches frameCount)).map
    (fun (batch : Nat) => ((batch : ℚ) + 1) / (totalBatches frameCount : ℚ))

/-- The constructor options as JS values: numbers as `ℚ` and strings as
`String`, where an absent optional field is encoded by its falsy default
(`0`, resp. `""`) since `x || d` cannot distinguish the two; `canvas` is
the truthiness of the passed handle. -/
structure Options where
  canvas : Bool
  pfx : String
  frameCount : ℚ
  imagePath : String
  digits : ℚ
  fps : ℚ
  loop : Bool
  autoplay : Bool
  debug : Bool
  playOnce : Bool

/-- The configuration fields the constructor assigns when validation
passes. -/
structure Constructed where
  pfx : String
  frameCount : ℚ
  imagePath : String
  digits : ℚ
  fps : ℚ
  loop : Bool
  autoplay : Bool
  debug : Bool
  playOnce : Bool
  deriving DecidableEq, Repr

/-- The validation and defaulting the `FrameAnimator` constructor
performs before any state is created: required options are checked by
JS falsiness only, and `x || default` replaces any falsy explicit value
by the default. -/
def construct (o : Options) : Except String Constructed :=
  if !o.canvas then Except.error "Canvas обязателен"
  else if o.pfx = "" then Except.error "Prefix обязателен"
  else if o.frameCount = 0 then Except.error "Количество кадров обязательно"
  else Except.ok
    { pfx := o.pfx
      frameCount := o.frameCount
      imagePath :=
        normalizePath (if o.imagePath = "" then "./media/imgOpt/" else o.imagePath)
      digits := if o.digits = 0 then 3 else o.digits
      fps := if o.fps = 0 then 24 else o.fps
      loop := o.loop
      autoplay := o.autoplay
      debug := o.debug
      playOnce := o.playOnce }

/-- A concrete baseline session for the concrete test theorems: two
frames, both loaded, idle, fault-free, load finished, `fps = 25` so the
target interval is exactly 40 ms. -/
def baseState : FrameAnimator :=
  { pfx := "anim", frameCount := 2, imagePath := "./media/imgOpt/",
    digits := 3, fps := 25, loop := true, playOnce := false,
    images := [true, true], currentFrame := 0, isPlaying := false,
    hasPlayed := false, hasError := false, isLoading := false,
    lastTime := 0, armed := false, originalWidth := 800,
    originalHeight := 400, scale := 1, canvasWidth := 800,
    canvasHeight := 400 }

/-! Helper lemmas shared by the scheduler theorems. -/

/-- A tick arriving while not playing leaves the state unchanged apart
from consuming the registration, and draws nothing. -/
lemma animate_not_playing (a : FrameAnimator) (ts : ℚ) (h : a.isPlaying = false) :
    animate a ts = ({ a with armed := false }, none) := by
  simp [animate, h]

/-- From a stopped, unarmed state, any sequence of further ticks changes
nothing and draws nothing. -/
lemma runTicks_stopped (a : FrameAnimator) (l : List ℚ)
    (hp : a.isPlaying = false) (ha : a.armed = false) :
    runTicks a l = (a, []) := by
  induction l with
  | nil => rfl
  | cons t ts ih =>
      have he : ({ a with armed := false } : FrameAnimator) = a := by
        cases a; simp_all
      simp [runTicks, animate_not_playing a t hp, he, ih]

/-- The advance condition of `renderFrame` is the negation of the frozen
play-once state. -/
lemma advance_cond_eq (a : FrameAnimator)
    (h : ¬(a.playOnce = true ∧ a.hasPlayed = true ∧ a.loop = false)) :
    (!a.playOnce || !a.hasPlayed || a.loop) = true := by
  cases hp : a.playOnce <;> cases hh : a.hasPlayed <;> cases hl : a.loop <;>
    simp_all

/-- Unfrozen `renderFrame`: the index advances first, and the draw happens
at the advanced index exactly when that slot is loaded. -/
lemma renderFrame_not_frozen (a : FrameAnimator)
    (h : ¬(a.playOnce = true ∧ a.hasPlayed = true ∧ a.loop = false)) :
    renderFrame a =
      ({ a with currentFrame := (a.currentFrame + 1) % a.frameCount },
        if a.images.getD ((a.currentFrame + 1) % a.frameCount) false
        then some ((a.currentFrame + 1) % a.frameCount) else none) := by
  have hc := advance_cond_eq a h
  simp only [renderFrame, hc, if_true]
  split <;> simp_all

/-- A tick while playing, with play-once not yet completed, that does not
reach the target interval: nothing changes except re-arming, and nothing
is drawn. -/
lemma animate_ineligible (a : FrameAnimator) (ts : ℚ)
    (hplay : a.isPlaying = true)
    (hguard : (a.playOnce && a.hasPlayed) = false)
    (h : ¬(ts - a.lastTime > 1000 / a.fps)) :
    animate a ts = ({ a with armed := true }, none) := by
  simp [animate, hplay, hguard, h]

/-- A tick while playing with play-once already completed: the scheduler
stops at once, drawing nothing. -/
lemma animate_completed (a : FrameAnimator) (ts : ℚ)
    (hplay : a.isPlaying = true)
    (hguard : (a.playOnce && a.hasPlayed) = true) :
    animate a ts = (stop { a with armed := false }, none) := by
  simp [animate, hplay, hguard]

/-- Full characterization of an eligible tick (playing, play-once not yet
completed, elapsed time strictly above the target interval): the index
advances by one modulo `frameCount`, the draw happens at the advanced
index exactly when its slot is loaded, the residual delta is carried into
`lastTime`, and the scheduler stops instead of re-arming exactly when the
advanced index is the last frame under `playOnce && !loop`. -/
lemma animate_eligible (a : FrameAnimator) (ts : ℚ)
    (hplay : a.isPlaying = true)
    (hnc : ¬(a.playOnce = true ∧ a.hasPlayed = true))
    (helig : ts - a.lastTime > 1000 / a.fps) :
    animate a ts =
      (let idx := (a.currentFrame + 1) % a.frameCount
       let drawn := if a.images.getD idx false then some idx else none
       let a1 := { a with currentFrame := idx, armed := false,
                          lastTime := ts - jsMod (ts - a.lastTime) (1000 / a.fps) }
       if (idx : Int) = (a.frameCount : Int) - 1 then
         if a.playOnce && !a.loop then
           ({ a1 with hasPlayed := true, isPlaying := false }, drawn)
         else ({ a1 with hasPlayed := true, armed := true }, drawn)
       else ({ a1 with armed := true }, drawn)) := by
  have hguard : (a.playOnce && a.hasPlayed) = false := by
    cases hp : a.playOnce <;> cases hh : a.hasPlayed <;> simp_all
  have hfree : (!a.playOnce || !a.hasPlayed || a.loop) = true := by
    cases hp : a.playOnce <;> cases hh : a.hasPlayed <;> cases hl : a.loop <;>
      simp_all
  simp only [animate, renderFrame, stop, hplay, hguard, hfree, helig,
    Bool.not_true, if_true, if_false, ite_true, ite_false, Bool.false_eq_true,
    reduceIte]
  split_ifs <;> rfl

/-- Bool form of the play-once-completed guard being off. -/
lemma guard_false (a : FrameAnimator)
    (hnc : ¬(a.playOnce = true ∧ a.hasPlayed = true)) :
    (a.playOnce && a.hasPlayed) = false := by
  cases hp : a.playOnce <;> cases hh : a.hasPlayed <;> simp_all

/-- A playing two-frame session at index 0, `fps = 25` (interval exactly
40 ms), `lastTime = 0`, all slots loaded. -/
def playingBase : FrameAnimator :=
  { pfx := "anim", frameCount := 2, imagePath := "./media/imgOpt/",
    digits := 3, fps := 25, loop := true, playOnce := false,
    images := [true, true], currentFrame := 0, isPlaying := true,
    hasPlayed := false, hasError := false, isLoading := false,
    lastTime := 0, armed := true, originalWidth := 800,
    originalHeight := 400, scale := 1, canvasWidth := 800,
    canvasHeight := 400 }

/-- An idle three-frame looping session, all slots loaded. -/
def idle3 : FrameAnimator :=
  { pfx := "anim", frameCount := 3, imagePath := "./media/imgOpt/",
    digits := 3, fps := 25, loop := true, playOnce := false,
    images := [true, true, true], currentFrame := 0, isPlaying := false,
    hasPlayed := false, hasError := false, isLoading := false,
    lastTime := 0, armed := false, originalWidth := 800,
    originalHeight := 400, scale := 1, canvasWidth := 800,
    canvasHeight := 400 }

/-- An idle two-frame session with `playOnce = true` and `loop = true`,
all slots loaded. -/
def idleOnceLoop : FrameAnimator :=
  { pfx := "anim", frameCount := 2, imagePath := "./media/imgOpt/",
    digits := 3, fps := 25, loop := true, playOnce := true,
    images := [true, true], currentFrame := 0, isPlaying := false,
    hasPlayed := false, hasError := false, isLoading := false,
    lastTime := 0, armed := false, originalWidth := 800,
    originalHeight := 400, scale := 1, canvasWidth := 800,
    canvasHeight := 400 }

/-- An idle two-frame session with `playOnce = true` and `loop = false`,
all slots loaded. -/
def idleOnceNoLoop : FrameAnimator :=
  { pfx := "anim", frameCount := 2, imagePath := "./media/imgOpt/",
    digits := 3, fps := 25, loop := false, playOnce := true,
    images := [true, true], currentFrame := 0, isPlaying := false,
    hasPlayed := false, hasError := false, isLoading := false,
    lastTime := 0, armed := false, originalWidth := 800,
    originalHeight := 400, scale := 1, canvasWidth := 800,
    canvasHeight := 400 }

/-- Claim C1, counterexample: on a fresh `play()` of a three-frame
looping session with every slot loaded, the first eligible tick draws
frame index 1, not frame index 0 — `renderFrame` advances the index
before the slot lookup and the draw. -/
theorem c1_counterexample :
    (runTicks (play idle3 0) [100]).2 = [1] ∧ (1 : Nat) ≠ 0 := by
  have h : Int.tdiv 5 2 = 2 := by decide
  refine ⟨?_, by decide⟩
  norm_num [runTicks, animate, renderFrame, play, idle3, jsMod, jsTrunc, h]

/-- Claim C1 (amended): on every clock tick where the elapsed time
strictly exceeds the target frame interval and play-once has not already
completed, the scheduler first advances `currentFrameIndex` to
`(currentFrameIndex + 1) mod frameCount` and only afterwards renders the
frame at the advanced index (when its slot is loaded); consequently, on a
fresh `play()` (which sets `currentFrameIndex = 0`) the first frame drawn
is frame index `1 mod frameCount`, not index 0. -/
theorem c1_advance_before_render (a : FrameAnimator) (ts : ℚ)
    (hplay : a.isPlaying = true)
    (hnc : ¬(a.playOnce = true ∧ a.hasPlayed = true))
    (helig : ts - a.lastTime > 1000 / a.fps) :
    (animate a ts).1.currentFrame = (a.currentFrame + 1) % a.frameCount ∧
    (animate a ts).2 =
      (if a.images.getD ((a.currentFrame + 1) % a.frameCount) false
       then some ((a.currentFrame + 1) % a.frameCount) else none) := by
  rw [animate_eligible a ts hplay hnc helig]
  dsimp only
  split_ifs <;> simp

/-- Concrete instance of `c1_advance_before_render`: a playing two-frame
session at index 0 gets a tick 100 ms after `lastTime` (interval 40 ms)
and draws index 1. -/
theorem c1_witness :
    (animate playingBase 100).1.currentFrame = 1 ∧
    (animate playingBase 100).2 = some 1 := by
  have h := c1_advance_before_render playingBase 100 rfl
    (by simp [playingBase]) (by norm_num [playingBase])
  refine ⟨?_, ?_⟩
  · rw [h.1]
    simp [playingBase]
  · rw [h.2]
    simp [playingBase]

/-- Claim C2 (confirmed): with `playOnce = true` and `loop = false`, a
tick that renders frame `frameCount - 1` leaves the scheduler stopped
(`isPlaying = false`), with the registration cancelled, `hasPlayed` set,
and the index frozen at `frameCount - 1`; and from that state any
further sequence of ticks changes nothing and renders nothing. -/
theorem c2_playonce_stops_after_final_render (a : FrameAnimator) (ts : ℚ)
    (l : List ℚ)
    (honce : a.playOnce = true) (hloop : a.loop = false)
    (hn : 1 ≤ a.frameCount) (hplay : a.isPlaying = true)
    (hdrew : (animate a ts).2 = some (a.frameCount - 1)) :
    (animate a ts).1.isPlaying = false ∧
    (animate a ts).1.armed = false ∧
    (animate a ts).1.hasPlayed = true ∧
    (animate a ts).1.currentFrame = a.frameCount - 1 ∧
    runTicks (animate a ts).1 l = ((animate a ts).1, []) := by
  have hh : a.hasPlayed = false := by
    cases h2 : a.hasPlayed
    · rfl
    · rw [animate_completed a ts hplay (by simp [honce, h2])] at hdrew
      simp at hdrew
  have hnc : ¬(a.playOnce = true ∧ a.hasPlayed = true) := by simp [hh]
  have helig : ts - a.lastTime > 1000 / a.fps := by
    by_contra hcon
    rw [animate_ineligible a ts hplay (guard_false a hnc) hcon] at hdrew
    simp at hdrew
  have hc2 : (a.playOnce && !a.loop) = true := by simp [honce, hloop]
  rw [animate_eligible a ts hplay hnc helig] at hdrew ⊢
  dsimp only at hdrew ⊢
  by_cases himg :
      a.images.getD ((a.currentFrame + 1) % a.frameCount) false = true
  · have hidx : (a.currentFrame + 1) % a.frameCount = a.frameCount - 1 := by
      by_cases hc1 :
          (((a.currentFrame + 1) % a.frameCount : Nat) : Int) =
            (a.frameCount : Int) - 1
      · omega
      · simp only [himg, if_true, hc1, if_false] at hdrew
        simp at hdrew
        omega
    have hc1 : (((a.currentFrame + 1) % a.frameCount : Nat) : Int) =
        (a.frameCount : Int) - 1 := by omega
    simp only [hc1, if_true, hc2, himg]
    exact ⟨trivial, trivial, trivial, hidx, runTicks_stopped _ l rfl rfl⟩
  · simp only [himg, if_false] at hdrew
    split at hdrew <;> simp_all
/-- Concrete instance of `c2_playonce_stops_after_final_render`: a fresh
`play()` of the two-frame play-once non-looping session, one eligible
tick at 50 ms rendering the final frame index 1, then two further ticks
that change nothing. -/
theorem c2_witness :
    (animate (play idleOnceNoLoop 0) 50).1.isPlaying = false ∧
    (animate (play idleOnceNoLoop 0) 50).1.armed = false ∧
    (animate (play idleOnceNoLoop 0) 50).1.hasPlayed = true ∧
    (animate (play idleOnceNoLoop 0) 50).1.currentFrame = 1 ∧
    runTicks (animate (play idleOnceNoLoop 0) 50).1 [100, 150] =
      ((animate (play idleOnceNoLoop 0) 50).1, []) := by
  have h5 : Int.tdiv 5 4 = 1 := by decide
  have hdrew : (animate (play idleOnceNoLoop 0) 50).2 = some (2 - 1) := by
    norm_num [animate, renderFrame, play, idleOnceNoLoop, jsMod, jsTrunc, h5]
  have h := c2_playonce_stops_after_final_render (play idleOnceNoLoop 0) 50
    [100, 150] (by simp [play, idleOnceNoLoop]) (by simp [play, idleOnceNoLoop])
    (by simp [play, idleOnceNoLoop]) (by simp [play, idleOnceNoLoop]) hdrew
  exact ⟨h.1, h.2.1, h.2.2.1, h.2.2.2.1, h.2.2.2.2⟩

/-- Claim C3, counterexample: a configuration with `loop = true` (but
`playOnce = true`) in which the scheduler stops on its own.  After a
fresh `play()` and two eligible ticks — the first of which renders the
final frame successfully, and with `stop()` never invoked — the session
is no longer playing. -/
theorem c3_counterexample :
    idleOnceLoop.loop = true ∧
    (runTicks (play idleOnceLoop 0) [50, 100]).1.isPlaying = false ∧
    (runTicks (play idleOnceLoop 0) [50, 100]).2 = [1] := by
  have h5 : Int.tdiv 5 4 = 1 := by decide
  refine ⟨rfl, ?_, ?_⟩ <;>
    norm_num [runTicks, animate, renderFrame, play, stop, idleOnceLoop,
      jsMod, jsTrunc, h5]

/-- Claim C3 (amended): for every configuration with `loop = true` and
`playOnce = false`, the scheduler never spontaneously stops: every tick
from a playing state leaves it playing with the next tick armed, keeps
`currentFrameIndex` inside `[0, frameCount - 1]`, advances it by one
modulo `frameCount` exactly on eligible ticks, and wraps it from
`frameCount - 1` back to 0. -/
theorem c3_loop_no_spontaneous_stop (a : FrameAnimator) (ts : ℚ)
    (_hl : a.loop = true) (hp : a.playOnce = false)
    (hplay : a.isPlaying = true) (hn : 0 < a.frameCount)
    (hc : a.currentFrame < a.frameCount) :
    (animate a ts).1.isPlaying = true ∧
    (animate a ts).1.armed = true ∧
    (animate a ts).1.currentFrame < a.frameCount ∧
    (animate a ts).1.currentFrame =
      (if ts - a.lastTime > 1000 / a.fps
       then (a.currentFrame + 1) % a.frameCount else a.currentFrame) ∧
    (a.currentFrame = a.frameCount - 1 → ts - a.lastTime > 1000 / a.fps →
      (animate a ts).1.currentFrame = 0) := by
  have hnc : ¬(a.playOnce = true ∧ a.hasPlayed = true) := by simp [hp]
  by_cases helig : ts - a.lastTime > 1000 / a.fps
  · rw [animate_eligible a ts hplay hnc helig]
    dsimp only
    have hc2 : (a.playOnce && !a.loop) = false := by simp [hp]
    simp only [hc2, Bool.false_eq_true, if_false, helig, if_true]
    split_ifs with h1 <;>
      exact ⟨hplay, rfl, Nat.mod_lt _ hn, rfl, fun hlast _ => by
        rw [hlast, Nat.sub_add_cancel hn, Nat.mod_self]⟩
  · rw [animate_ineligible a ts hplay (guard_false a hnc) helig]
    exact ⟨hplay, rfl, hc, by simp [helig], fun _ h2 => absurd h2 helig⟩

/-- Concrete instance of `c3_loop_no_spontaneous_stop`: the playing
two-frame looping session, one eligible tick at 100 ms. -/
theorem c3_witness :
    (animate playingBase 100).1.isPlaying = true ∧
    (animate playingBase 100).1.armed = true ∧
    (animate playingBase 100).1.currentFrame < 2 ∧
    (animate playingBase 100).1.currentFrame =
      (if (100 : ℚ) - playingBase.lastTime > 1000 / playingBase.fps
       then (playingBase.currentFrame + 1) % playingBase.frameCount
       else playingBase.currentFrame) ∧
    (playingBase.currentFrame = playingBase.frameCount - 1 →
      (100 : ℚ) - playingBase.lastTime > 1000 / playingBase.fps →
      (animate playingBase 100).1.currentFrame = 0) :=
  c3_loop_no_spontaneous_stop playingBase 100 rfl rfl rfl (by decide)
    (by decide)

/-- Claim C4, counterexample: a tick whose elapsed time equals the
target interval exactly (40 ms at `fps = 25`) satisfies the claim's
"elapsed at least the target interval" condition yet performs no advance
and no draw — the source test is the strict `delta > 1000 / fps`. -/
theorem c4_counterexample :
    (40 : ℚ) - playingBase.lastTime ≥ 1000 / playingBase.fps ∧
    animate playingBase 40 = ({ playingBase with armed := true }, none) := by
  constructor
  · norm_num [playingBase]
  · exact animate_ineligible playingBase 40 rfl rfl (by norm_num [playingBase])

/-- Claim C4 (amended): on a single tick while playing (play-once not
completed): if the elapsed time since `lastTime` is at most the target
interval `1000 / fps`, no frame advance and no draw occur and the tick
is merely re-armed; if it strictly exceeds the target interval, exactly
one frame advance occurs (even at 2.3 times the interval) and the
residual is carried forward as `lastTime = now - (elapsed mod interval)`. -/
theorem c4_tick_threshold (a : FrameAnimator) (ts : ℚ)
    (hplay : a.isPlaying = true)
    (hnc : ¬(a.playOnce = true ∧ a.hasPlayed = true)) :
    (ts - a.lastTime ≤ 1000 / a.fps →
      animate a ts = ({ a with armed := true }, none)) ∧
    (ts - a.lastTime > 1000 / a.fps →
      (animate a ts).1.currentFrame = (a.currentFrame + 1) % a.frameCount ∧
      (animate a ts).1.lastTime = ts - jsMod (ts - a.lastTime) (1000 / a.fps)) := by
  constructor
  · intro hle
    exact animate_ineligible a ts hplay (guard_false a hnc) (not_lt.mpr hle)
  · intro helig
    rw [animate_eligible a ts hplay hnc helig]
    dsimp only
    split_ifs <;> exact ⟨rfl, rfl⟩

/-- Concrete instance of `c4_tick_threshold`: at 30 ms (below the 40 ms
interval) the tick only re-arms; at 92 ms (2.3 times the interval) the
index advances exactly once and `lastTime` becomes 80. -/
theorem c4_witness :
    animate playingBase 30 = ({ playingBase with armed := true }, none) ∧
    (animate playingBase 92).1.currentFrame = 1 ∧
    (animate playingBase 92).1.lastTime = 80 := by
  have h30 := (c4_tick_threshold playingBase 30 rfl (by simp [playingBase])).1
    (by norm_num [playingBase])
  have h92 := (c4_tick_threshold playingBase 92 rfl (by simp [playingBase])).2
    (by norm_num [playingBase])
  refine ⟨h30, ?_, ?_⟩
  · rw [h92.1]
    simp [playingBase]
  · rw [h92.2]
    have ht : Int.tdiv 23 10 = 2 := by decide
    norm_num [playingBase, jsMod, jsTrunc, ht]

/-- Claim C5 (confirmed): the progress values reported across the batch
completions of `loadAllFrames` are monotonically non-decreasing, the
value reported after batch `i` equals `(i + 1) / totalBatches`, and the
value `1` is reported exactly at the final batch and never before it. -/
theorem c5_progress_monotone (n : Nat) (hn : 0 < n) :
    List.Sorted (· ≤ ·) (progressReports n) ∧
    (∀ i (hi : i < (progressReports n).length),
      (progressReports n).get ⟨i, hi⟩ =
        ((i : ℚ) + 1) / (totalBatches n : ℚ)) ∧
    (progressReports n).getLast? = some 1 ∧
    (∀ i (hi : i < (progressReports n).length),
      i + 1 < totalBatches n → (progressReports n).get ⟨i, hi⟩ < 1) := by
  have hT : 0 < totalBatches n := by
    apply Nat.div_pos _ (by norm_num)
    omega
  have hTq : (0 : ℚ) < (totalBatches n : ℚ) := by exact_mod_cast hT
  have hget : ∀ i (hi : i < (progressReports n).length),
      (progressReports n).get ⟨i, hi⟩ =
        ((i : ℚ) + 1) / (totalBatches n : ℚ) := by
    intro i hi
    simp only [progressReports, List.get_eq_getElem, List.getElem_map,
      List.getElem_range]
  refine ⟨?_, hget, ?_, ?_⟩
  · rw [List.Sorted, List.pairwise_iff_get]
    intro i j hij
    rw [hget i.1 i.isLt, hget j.1 j.isLt]
    gcongr
    exact_mod_cast le_of_lt hij
  · obtain ⟨m, hm⟩ : ∃ m, totalBatches n = m + 1 :=
      ⟨totalBatches n - 1, by omega⟩
    show ((List.range (totalBatches n)).map
        (fun (batch : Nat) =>
          ((batch : ℚ) + 1) / (totalBatches n : ℚ))).getLast? = some 1
    rw [hm, List.range_succ, List.map_append, List.map_cons, List.map_nil,
      List.getLast?_concat]
    congr 1
    push_cast
    rw [div_self]
    positivity
  · intro i hi hlt
    rw [hget i hi, div_lt_one hTq]
    exact_mod_cast hlt

/-- Concrete instance of `c5_progress_monotone` at `frameCount = 90`
(two batches of 45): the reported sequence is `[1/2, 1]`. -/
theorem c5_witness :
    List.Sorted (· ≤ ·) (progressReports 90) ∧
    (progressReports 90).getLast? = some 1 ∧
    progressReports 90 = [1 / 2, 1] := by
  have h := c5_progress_monotone 90 (by norm_num)
  refine ⟨h.1, h.2.2.1, ?_⟩
  have ht : totalBatches 90 = 2 := by norm_num [totalBatches]
  norm_num [progressReports, ht, List.range_succ]

/-- Claim C6 (confirmed): `play()` and `playFromFrame(startIndex)` are
silent no-ops — the state is returned completely unchanged and, being
total functions, no exception propagates — whenever the session is
already playing, carries the fatal error flag, or is still loading. -/
theorem c6_play_guard_noop (a : FrameAnimator) (k : Int) (now : ℚ)
    (h : a.isPlaying = true ∨ a.hasError = true ∨ a.isLoading = true) :
    play a now = a ∧ playFromFrame a k now = a := by
  have hc : (a.isPlaying || a.hasError || a.isLoading) = true := by
    rcases h with h | h | h <;> simp [h]
  constructor <;> simp [play, playFromFrame, hc]

/-- Concrete instance of `c6_play_guard_noop`: the playing two-frame
session ignores both `play` and `playFromFrame`. -/
theorem c6_witness :
    play playingBase 123 = playingBase ∧
    playFromFrame playingBase 5 123 = playingBase :=
  c6_play_guard_noop playingBase 5 123 (Or.inl rfl)

/-- Claim C7 (confirmed): the frame path is exactly the concatenation
`{imagePath}{stem}/{stem}{frame number zero-padded to digits}.webp`; in
particular with `digits = 3` and stem `"anim"`, frame 5 yields
`{base}anim/anim005.webp` and frame 90 yields `{base}anim/anim090.webp`,
for every base path. -/
theorem c7_frame_path (a : FrameAnimator) (n : Nat) :
    getFramePath a n =
      a.imagePath ++ (a.pfx ++ ("/" ++ (a.pfx ++
        (padStart (Nat.repr n) a.digits '0' ++ ".webp")))) ∧
    (a.pfx = "anim" → a.digits = 3 →
      getFramePath a 5 = a.imagePath ++ "anim/anim005.webp" ∧
      getFramePath a 90 = a.imagePath ++ "anim/anim090.webp") := by
  constructor
  · simp [getFramePath, String.append_assoc]
  · intro hp hd
    constructor <;>
      · simp only [getFramePath, hp, hd, String.append_assoc]
        congr 1

/-- Concrete instance of `c7_frame_path`: the baseline session
(`digits = 3`, stem `"anim"`, default base) maps frame 5 and frame 90 to
the expected literal paths. -/
theorem c7_witness :
    getFramePath baseState 5 = "./media/imgOpt/" ++ "anim/anim005.webp" ∧
    getFramePath baseState 90 = "./media/imgOpt/" ++ "anim/anim090.webp" :=
  (c7_frame_path baseState 0).2 rfl rfl

/-- Claim C8, counterexample: the input `"foo//"` already ends in a
slash, so normalization returns it unchanged with two trailing
separators — not "exactly one". -/
theorem c8_counterexample :
    normalizePath "foo//" = "foo//" ∧
    jsEndsWith (normalizePath "foo//") "//" = true := by
  constructor <;> decide

/-- Claim C8 (amended): normalization produces a path ending in at least
one `/`: exactly one `/` is appended when the input does not already end
with `/`, and inputs already ending with `/` (possibly several) are
returned unchanged — multiple trailing separators are not collapsed. -/
theorem c8_normalize_trailing_slash (path : String) :
    jsEndsWith (normalizePath path) "/" = true ∧
    (jsEndsWith path "/" = false → normalizePath path = path ++ "/") ∧
    (jsEndsWith path "/" = true → normalizePath path = path) := by
  have happ : jsEndsWith (path ++ "/") "/" = true := by
    simp only [jsEndsWith]
    rw [List.isSuffixOf_iff_suffix]
    exact String.data_append path "/" ▸ List.suffix_append path.data "/".data
  refine ⟨?_, ?_, ?_⟩
  · by_cases h : jsEndsWith path "/" = true
    · simp [normalizePath, h]
    · simp only [normalizePath, h, if_false, Bool.false_eq_true]
      exact happ
  · intro h
    simp [normalizePath, h]
  · intro h
    simp [normalizePath, h]

/-- Concrete instance of `c8_normalize_trailing_slash`: `"abc"` gains
exactly one trailing slash. -/
theorem c8_witness :
    jsEndsWith (normalizePath "abc") "/" = true ∧
    normalizePath "abc" = "abc" ++ "/" :=
  ⟨(c8_normalize_trailing_slash "abc").1,
   (c8_normalize_trailing_slash "abc").2.1 (by decide)⟩

/-- A session that is not playing, play-once completed but looping
(so the freeze condition does not hold), with every slot still empty. -/
def notPlayingEmpty : FrameAnimator :=
  { pfx := "anim", frameCount := 2, imagePath := "./media/imgOpt/",
    digits := 3, fps := 25, loop := true, playOnce := true,
    images := [false, false], currentFrame := 0, isPlaying := false,
    hasPlayed := true, hasError := false, isLoading := false,
    lastTime := 0, armed := false, originalWidth := 800,
    originalHeight := 400, scale := 1, canvasWidth := 800,
    canvasHeight := 400 }

/-- Claim C9 (confirmed): whenever the frozen play-once condition
(`playOnce && hasPlayed && !loop`) does not hold, `renderFrame` advances
`currentFrame` by one modulo `frameCount` before the slot lookup — the
index advances even when the looked-up slot is empty (in which case the
draw is silently skipped), and also when the render is forced by a
container-resize notification, with no test of the playing flag. -/
theorem c9_render_advances_unconditionally (a : FrameAnimator) (cw ch : ℚ)
    (hfree : ¬(a.playOnce = true ∧ a.hasPlayed = true ∧ a.loop = false)) :
    (renderFrame a).1.currentFrame = (a.currentFrame + 1) % a.frameCount ∧
    (a.images.getD ((a.currentFrame + 1) % a.frameCount) false = false →
      (renderFrame a).2 = none) ∧
    (a.originalWidth ≠ 0 → a.originalHeight ≠ 0 →
      (handleResize a cw ch).1.currentFrame =
        (a.currentFrame + 1) % a.frameCount) := by
  have h1 := renderFrame_not_frozen a hfree
  refine ⟨?_, ?_, ?_⟩
  · rw [h1]
  · intro himg
    rw [h1]
    simp only [himg, Bool.false_eq_true, if_false]
  · intro hw hh2
    have hfree2 : ¬((updateCanvasSize a cw ch).playOnce = true ∧
        (updateCanvasSize a cw ch).hasPlayed = true ∧
        (updateCanvasSize a cw ch).loop = false) := by
      simpa [updateCanvasSize] using hfree
    unfold handleResize
    rw [if_neg (by simp [hw, hh2]), renderFrame_not_frozen _ hfree2]
    simp [updateCanvasSize]

/-- Concrete instance of `c9_render_advances_unconditionally`: a stopped
play-once-completed looping session with empty slots still advances from
index 0 to 1 on a direct render and on a resize-forced render, drawing
nothing. -/
theorem c9_witness :
    (renderFrame notPlayingEmpty).1.currentFrame = 1 ∧
    (renderFrame notPlayingEmpty).2 = none ∧
    (handleResize notPlayingEmpty 400 300).1.currentFrame = 1 := by
  have h := c9_render_advances_unconditionally notPlayingEmpty 400 300
    (by simp [notPlayingEmpty])
  refine ⟨?_, ?_, ?_⟩
  · rw [h.1]
    decide
  · exact h.2.1 (by decide)
  · rw [h.2.2 (by norm_num [notPlayingEmpty]) (by norm_num [notPlayingEmpty])]
    decide

/-- The options record with every required field present and truthy, and
every optional field explicitly set to its falsy value (`0` for the
numbers, `""` for the base path). -/
def goodOptions : Options :=
  { canvas := true, pfx := "anim", frameCount := 90, imagePath := "",
    digits := 0, fps := 0, loop := true, autoplay := true, debug := false,
    playOnce := false }

/-- Claim C10 (confirmed): construction validates required options only
by falsiness — `frameCount = 0` is rejected with the missing-frameCount
error while every nonzero rational `frameCount` (negative or
non-integer included) is accepted; and the explicitly passed falsy
values `fps = 0`, `digits = 0` and `imagePath = ""` are silently
replaced by the defaults 24, 3 and the default base directory. -/
theorem c10_falsy_validation :
    construct { goodOptions with frameCount := 0 } =
      Except.error "Количество кадров обязательно" ∧
    (∀ q : ℚ, q ≠ 0 →
      construct { goodOptions with frameCount := q } =
        Except.ok { pfx := "anim", frameCount := q,
                    imagePath := "./media/imgOpt/", digits := 3, fps := 24,
                    loop := true, autoplay := true, debug := false,
                    playOnce := false }) := by
  have hnp : normalizePath "./media/imgOpt/" = "./media/imgOpt/" := by decide
  have hpfx : ¬("anim" : String) = "" := by decide
  constructor
  · norm_num [construct, goodOptions, hpfx]
  · intro q hq
    norm_num [construct, goodOptions, hq, hnp, hpfx]

/-- Concrete instances of `c10_falsy_validation`: the negative count
`-5` and the non-integer count `5/2` are both accepted, with the falsy
optional values replaced by the defaults. -/
theorem c10_witness :
    construct { goodOptions with frameCount := -5 } =
      Except.ok { pfx := "anim", frameCount := -5,
                  imagePath := "./media/imgOpt/", digits := 3, fps := 24,
                  loop := true, autoplay := true, debug := false,
                  playOnce := false } ∧
    construct { goodOptions with frameCount := 5 / 2 } =
      Except.ok { pfx := "anim", frameCount := 5 / 2,
                  imagePath := "./media/imgOpt/", digits := 3, fps := 24,
                  loop := true, autoplay := true, debug := false,
                  playOnce := false } :=
  ⟨c10_falsy_validation.2 (-5) (by norm_num),
   c10_falsy_validation.2 (5 / 2) (by norm_num)⟩

end FrameAnim
